import Mathlib

/-!
Verification of the adapter-registry and dispatch-gateway core of
poly-db-mcp, a Deno MCP server exposing many database backends as tools.

The development shallowly embeds the JavaScript gateway code:

* `src/index.js`  — the original STDIO entry point (11 adapters);
* `src/server.js` — the dual-mode entry point (20 adapters), whose
  `createMcpServer` registers every adapter tool behind a try/catch
  wrapper and whose `startHttpMode` implements `tools/list` and
  `tools/call` dispatch by hand;
* `src/adapters/postgresql.js` and `src/adapters/lmdb.js` — the two
  adapters the claims cite, with their module-level connection slots.

JavaScript values are modelled by `JVal` (with an explicit `undef`),
exceptions by `Except JsError`, and each module-level mutable slot by
explicit state passing.  Backend I/O (client construction, queries,
`Deno.openKv`) is modelled by behaviour records so that theorems can
quantify over every possible backend outcome.
-/

/-- A JavaScript runtime value as the gateway and adapters see it.
`undef` models JavaScript `undefined`, which `JSON.stringify` drops from
object fields; `null` models JavaScript `null`. -/
inductive JVal where
  | null
  | undef
  | bool (b : Bool)
  | num (n : Int)
  | str (s : String)
  | arr (elems : List JVal)
  | obj (fields : List (String × JVal))

/-- A JavaScript exception as the gateway observes it: either an
`Error`-style message or the `TypeError` raised by a property access on
`undefined`/`null`. -/
inductive JsError where
  | error (message : String)
  | typeError (message : String)
deriving DecidableEq

/-- A thrown JavaScript value, classified by what `error.message` yields
on it: `err m` is any throwable carrying a string `message` property (an
`Error` instance in particular); `plain v` is any other throwable (a
thrown string, number, plain object, `null`, ...). -/
inductive Thrown where
  | err (message : String)
  | plain (v : JVal)

/-- The property access `error.message` on a thrown value: a string for
an `Error`-like value, `undefined` (here `none`) for other objects and
primitives, and itself a `TypeError` when the thrown value is `null` or
`undefined`. -/
def Thrown.messageProp : Thrown → Except JsError (Option String)
  | .err m => .ok (some m)
  | .plain .null =>
      .error (.typeError "Cannot read properties of null (reading 'message')")
  | .plain .undef =>
      .error (.typeError "Cannot read properties of undefined (reading 'message')")
  | .plain _ => .ok none

/-- The outcome of running one adapter operation handler on an argument
bag: it either returns a value or throws. -/
inductive HandlerOutcome where
  | ret (v : JVal)
  | throw (e : Thrown)

/-- Whether a handler outcome is a return or a throw of a value that
carries a string `message` (the outcomes on which the server.js catch
block can complete). -/
def HandlerOutcome.messageBearing : HandlerOutcome → Bool
  | .ret _ => true
  | .throw (.err _) => true
  | .throw (.plain _) => false

/-- One MCP tool response as the two gateway wrappers build it.  Both
constructors serialize to the same wire shape
`{content: [{type: "text", text: JSON.stringify(payload)}]}`; the
constructor records which branch of the try/catch produced the payload:
`success` holds the handler result, `failure` holds the error object
literal's fields in order. -/
inductive ToolResponse where
  | success (result : JVal)
  | failure (fields : List (String × JVal))

/-- Whether a field of a serialized object literal is populated: present
and not `undefined` (`JSON.stringify` drops `undefined`-valued fields). -/
def fieldPopulated (fields : List (String × JVal)) (key : String) : Bool :=
  match fields.lookup key with
  | some .undef => false
  | some _ => true
  | none => false

/-- The feedback issue URL of src/server.js (line 72). -/
def FEEDBACK_URL : String :=
  "https://github.com/hyperpolymath/polyglot-db-mcp/issues"

/-- The bug-report URL the server.js catch block builds (line 263) from
the tool name and the first 50 characters of the failure message.  The
`encodeURIComponent` call is modelled as the identity on the title text;
no claim depends on the URL's percent-encoding. -/
def feedbackUrl (toolName msg50 : String) : String :=
  FEEDBACK_URL ++ "/new?title=" ++ ("[BUG] " ++ toolName ++ ": " ++ msg50)
    ++ "&labels=bug"

/-- The adapter tool wrapper of src/server.js lines 251-286: the handler
outcome is wrapped in a success response, and a thrown value is caught
and wrapped in a failure object carrying `error`, `tool`, `adapter` and
`feedback` fields.  The catch block first evaluates
`error.message.substring(0, 50)`: when the thrown value has no string
`message` property this is `undefined.substring`, a `TypeError` thrown
from inside the catch block, which escapes the wrapper. -/
def serverToolWrapper (adapterName toolName : String)
    (outcome : HandlerOutcome) : Except JsError ToolResponse :=
  match outcome with
  | .ret v => .ok (.success v)
  | .throw e =>
    match e.messageProp with
    | .error te => .error te
    | .ok none =>
        .error (.typeError
          "Cannot read properties of undefined (reading 'substring')")
    | .ok (some msg) =>
        .ok (.failure
          [("error", .str msg),
           ("tool", .str toolName),
           ("adapter", .str adapterName),
           ("feedback", .obj
             [("message", .str
               "🐛 Found a bug? This is early development - your feedback helps!"),
              ("reportUrl", .str (feedbackUrl toolName (msg.take 50)))])])

/-- The adapter tool wrapper of src/index.js lines 211-232: a thrown
value is caught and wrapped as `{error: error.message}` — with no tool
or adapter field.  For a thrown value without a string `message`
property the `error` field is `undefined`; for a thrown `null` the
`error.message` access itself throws out of the catch block. -/
def indexToolWrapper (outcome : HandlerOutcome) : Except JsError ToolResponse :=
  match outcome with
  | .ret v => .ok (.success v)
  | .throw e =>
    match e.messageProp with
    | .error te => .error te
    | .ok (some msg) => .ok (.failure [("error", .str msg)])
    | .ok none => .ok (.failure [("error", .undef)])

/-!
Adapter registry and HTTP-mode dispatch.

Registration and dispatch in src/index.js and src/server.js inspect only
each adapter's registry key and the keys of its `tools` object (the tool
descriptions, parameter schemas and handlers are carried through without
being examined), so the registry is modelled by its name structure: a
list of pairs, adapter registry key to the adapter's operation names in
declaration order.
-/

/-- Operation names of the SurrealDB adapter (src/adapters/surrealdb.js). -/
def surrealdbToolNames : List String :=
  ["surreal_query", "surreal_select", "surreal_create", "surreal_update",
   "surreal_merge", "surreal_delete", "surreal_relate",
   "surreal_graph_traverse", "surreal_info", "surreal_live"]

/-- Operation names of the Dragonfly/Redis adapter (src/adapters/dragonfly.js). -/
def dragonflyToolNames : List String :=
  ["redis_get", "redis_set", "redis_del", "redis_keys", "redis_hget",
   "redis_hgetall", "redis_hset", "redis_lpush", "redis_lrange",
   "redis_sadd", "redis_smembers", "redis_zadd", "redis_zrange",
   "redis_info", "redis_dbsize"]

/-- Operation names of the XTDB adapter (src/adapters/xtdb.js). -/
def xtdbToolNames : List String :=
  ["xtdb_status", "xtdb_query", "xtdb_put", "xtdb_delete", "xtdb_entity",
   "xtdb_history", "xtdb_as_of", "xtdb_tx", "xtdb_recent_txs"]

/-- Operation names of the SQLite adapter (src/adapters/sqlite.js). -/
def sqliteToolNames : List String :=
  ["sqlite_query", "sqlite_exec", "sqlite_tables", "sqlite_schema",
   "sqlite_insert", "sqlite_update", "sqlite_delete", "sqlite_transaction"]

/-- Operation names of the DuckDB adapter (src/adapters/duckdb.js). -/
def duckdbToolNames : List String :=
  ["duck_query", "duck_read_csv", "duck_read_parquet", "duck_tables"]

/-- Operation names of the Qdrant adapter (src/adapters/qdrant.js). -/
def qdrantToolNames : List String :=
  ["qdrant_collections", "qdrant_collection_info", "qdrant_create_collection",
   "qdrant_delete_collection", "qdrant_upsert", "qdrant_search",
   "qdrant_search_batch", "qdrant_get", "qdrant_delete", "qdrant_scroll",
   "qdrant_count", "qdrant_create_index"]

/-- Operation names of the Meilisearch adapter (src/adapters/meilisearch.js). -/
def meilisearchToolNames : List String :=
  ["meili_search", "meili_indexes", "meili_create_index",
   "meili_delete_index", "meili_add_documents", "meili_get_document",
   "meili_get_documents", "meili_delete_document", "meili_delete_documents",
   "meili_settings", "meili_update_settings", "meili_stats", "meili_tasks"]

/-- Operation names of the MariaDB adapter (src/adapters/mariadb.js). -/
def mariadbToolNames : List String :=
  ["maria_query", "maria_exec", "maria_databases", "maria_tables",
   "maria_describe", "maria_insert", "maria_update", "maria_delete",
   "maria_transaction", "maria_use", "maria_status"]

/-- Operation names of the Memcached adapter (src/adapters/memcached.js). -/
def memcachedToolNames : List String :=
  ["memcached_get", "memcached_set", "memcached_add", "memcached_replace",
   "memcached_delete", "memcached_incr", "memcached_decr",
   "memcached_append", "memcached_prepend", "memcached_flush",
   "memcached_stats"]

/-- Operation names of the LMDB adapter (src/adapters/lmdb.js). -/
def lmdbToolNames : List String :=
  ["lmdb_get", "lmdb_put", "lmdb_delete", "lmdb_exists", "lmdb_range",
   "lmdb_keys", "lmdb_batch", "lmdb_stats"]

/-- Operation names of the iTop adapter (src/adapters/itop.js). -/
def itopToolNames : List String :=
  ["itop_get", "itop_get_by_id", "itop_create", "itop_update",
   "itop_delete", "itop_apply_stimulus", "itop_classes", "itop_relations",
   "itop_search", "itop_tickets", "itop_ci_types"]

/-- Operation names of the PostgreSQL adapter (src/adapters/postgresql.js). -/
def postgresqlToolNames : List String :=
  ["pg_query", "pg_select", "pg_insert", "pg_update", "pg_delete",
   "pg_tables", "pg_columns", "pg_json_query", "pg_create_table",
   "pg_extensions"]

/-- Operation names of the MongoDB adapter (src/adapters/mongodb.js). -/
def mongodbToolNames : List String :=
  ["mongo_find", "mongo_find_one", "mongo_insert_one", "mongo_insert_many",
   "mongo_update_one", "mongo_update_many", "mongo_delete_one",
   "mongo_delete_many", "mongo_aggregate", "mongo_count", "mongo_distinct",
   "mongo_collections", "mongo_create_index", "mongo_indexes"]

/-- Operation names of the Neo4j adapter (src/adapters/neo4j.js). -/
def neo4jToolNames : List String :=
  ["neo4j_query", "neo4j_create_node", "neo4j_create_relationship",
   "neo4j_find_nodes", "neo4j_find_relationships", "neo4j_shortest_path",
   "neo4j_delete_node", "neo4j_labels", "neo4j_relationship_types",
   "neo4j_stats"]

/-- Operation names of the Elasticsearch adapter (src/adapters/elasticsearch.js). -/
def elasticsearchToolNames : List String :=
  ["es_search", "es_match", "es_multi_match", "es_index_doc", "es_bulk",
   "es_get", "es_delete", "es_delete_by_query", "es_count", "es_aggregate",
   "es_create_index", "es_delete_index", "es_indices", "es_mapping",
   "es_cluster_health"]

/-- Operation names of the InfluxDB adapter (src/adapters/influxdb.js). -/
def influxdbToolNames : List String :=
  ["influx_query", "influx_write", "influx_write_point",
   "influx_query_simple", "influx_aggregate", "influx_buckets",
   "influx_measurements", "influx_tags", "influx_delete", "influx_health"]

/-- Modelled from the spec: the ArangoDB adapter's source file is not in
src/ (only its registration in src/server.js is); its thirteen operation
names are taken from the repository changelog entry for v1.2.0. -/
def arangodbToolNames : List String :=
  ["arango_query", "arango_list_databases", "arango_list_collections",
   "arango_collection_info", "arango_insert", "arango_get",
   "arango_update", "arango_delete", "arango_create_collection",
   "arango_create_index", "arango_traverse", "arango_list_graphs",
   "arango_explain"]

/-- Modelled from the spec: the Virtuoso adapter's source file is not in
src/ (only its registration in src/server.js is); its fourteen operation
names are taken from the repository changelog entry for v1.2.0. -/
def virtuosoToolNames : List String :=
  ["virtuoso_select", "virtuoso_ask", "virtuoso_construct",
   "virtuoso_describe", "virtuoso_insert", "virtuoso_delete",
   "virtuoso_update", "virtuoso_list_graphs", "virtuoso_graph_stats",
   "virtuoso_find_by_type", "virtuoso_text_search",
   "virtuoso_list_prefixes", "virtuoso_load_rdf", "virtuoso_clear_graph"]

/-- Modelled from the spec: the CouchDB adapter's source file is not in
src/ (only its registration in src/server.js is); its thirteen operation
names are taken from the repository changelog entry for v1.2.0. -/
def couchdbToolNames : List String :=
  ["couchdb_list_databases", "couchdb_create_database",
   "couchdb_delete_database", "couchdb_info", "couchdb_all_docs",
   "couchdb_get", "couchdb_insert", "couchdb_delete", "couchdb_find",
   "couchdb_create_index", "couchdb_view", "couchdb_bulk_docs",
   "couchdb_changes"]

/-- Modelled from the spec: the Cassandra adapter's source file is not in
src/ (only its registration in src/server.js is); its twelve operation
names are taken from the repository changelog entry for v1.2.0. -/
def cassandraToolNames : List String :=
  ["cassandra_query", "cassandra_list_keyspaces", "cassandra_list_tables",
   "cassandra_describe_table", "cassandra_insert", "cassandra_update",
   "cassandra_delete", "cassandra_create_keyspace",
   "cassandra_create_table", "cassandra_drop_table", "cassandra_batch",
   "cassandra_cluster_info"]

/-- The adapter registry of src/index.js lines 29-41: eleven adapters in
declaration order, each under its object-literal key. -/
def indexAdapters : List (String × List String) :=
  [("surrealdb", surrealdbToolNames),
   ("dragonfly", dragonflyToolNames),
   ("xtdb", xtdbToolNames),
   ("sqlite", sqliteToolNames),
   ("duckdb", duckdbToolNames),
   ("qdrant", qdrantToolNames),
   ("meilisearch", meilisearchToolNames),
   ("mariadb", mariadbToolNames),
   ("memcached", memcachedToolNames),
   ("lmdb", lmdbToolNames),
   ("itop", itopToolNames)]

/-- The adapter registry of src/server.js lines 48-69: twenty adapters in
declaration order, each under its object-literal key. -/
def serverAdapters : List (String × List String) :=
  [("surrealdb", surrealdbToolNames),
   ("dragonfly", dragonflyToolNames),
   ("xtdb", xtdbToolNames),
   ("sqlite", sqliteToolNames),
   ("duckdb", duckdbToolNames),
   ("qdrant", qdrantToolNames),
   ("meilisearch", meilisearchToolNames),
   ("mariadb", mariadbToolNames),
   ("memcached", memcachedToolNames),
   ("lmdb", lmdbToolNames),
   ("itop", itopToolNames),
   ("postgresql", postgresqlToolNames),
   ("mongodb", mongodbToolNames),
   ("neo4j", neo4jToolNames),
   ("elasticsearch", elasticsearchToolNames),
   ("influxdb", influxdbToolNames),
   ("arangodb", arangodbToolNames),
   ("virtuoso", virtuosoToolNames),
   ("couchdb", couchdbToolNames),
   ("cassandra", cassandraToolNames)]

/-- JavaScript object-literal construction as `Object.entries` later
observes it: keys keep first-insertion order, a repeated key silently
takes the last value, and construction never fails.  This is how the
`adapters` registry object of src/index.js and src/server.js comes into
being; no uniqueness validation of any kind is performed. -/
def objectEntries {α : Type} (pairs : List (String × α)) : List (String × α) :=
  pairs.foldl
    (fun acc kv =>
      if acc.any (fun p => p.1 == kv.1) then
        acc.map (fun p => if p.1 == kv.1 then (p.1, kv.2) else p)
      else
        acc ++ [kv])
    []

/-- The flattened operation table built by the registration loops
(src/server.js lines 242-288, src/index.js lines 203-234): every
adapter's tool names in registry order, each paired with its owning
adapter's registry key.  The loop registers each pair as it comes; it
performs no duplicate check. -/
def flattenOps (adapters : List (String × List String)) :
    List (String × String) :=
  adapters.flatMap (fun a => a.2.map (fun t => (t, a.1)))

/-- The meta tool names that src/server.js `startHttpMode` pushes first
into the `tools/list` response (lines 413-418). -/
def metaToolNames : List String := ["db_list", "db_help", "db_status", "db_copy"]

/-- The names in the `tools/list` response of src/server.js lines
410-439: the four meta tools, then every adapter's tools in registry
order. -/
def httpToolsList (adapters : List (String × List String)) : List String :=
  metaToolNames ++ adapters.flatMap (fun a => a.2)

/-- Own property names of `Object.prototype`.  The `adapters` registry
and each adapter's `tools` dictionary are plain object literals, so a
bracket access `o[name]` that misses every own entry still hits these
inherited properties, and each of their values (the built-in functions,
and `Object.prototype` itself for `__proto__`) is truthy. -/
def objectPrototypeProps : List String :=
  ["constructor", "hasOwnProperty", "isPrototypeOf", "propertyIsEnumerable",
   "toLocaleString", "toString", "valueOf", "__defineGetter__",
   "__defineSetter__", "__lookupGetter__", "__lookupSetter__", "__proto__"]

/-- Truthiness of the JavaScript bracket access `o[name]` on an
object-literal-backed dictionary all of whose own values are objects:
the access is truthy when `name` is an own key or when it hits the
`Object.prototype` chain. -/
def jsDictHit (keys : List String) (name : String) : Bool :=
  keys.contains name || objectPrototypeProps.contains name

/-- Outcome of the JavaScript bracket access `o[name]` on an
object-literal-backed dictionary: an own entry, a truthy value
inherited from `Object.prototype`, or `undefined`. -/
inductive JsLookup (α : Type) where
  | own (a : α)
  | inherited
  | absent
deriving DecidableEq

/-- The bracket access `o[name]` on an object-literal-backed dictionary,
distinguishing own entries from `Object.prototype` hits. -/
def jsDictGet {α : Type} (entries : List (String × α)) (name : String) :
    JsLookup α :=
  match List.lookup name entries with
  | some a => .own a
  | none =>
    if objectPrototypeProps.contains name then .inherited else .absent

/-- The result of the HTTP-mode `tools/call` dispatch: the named tool
was found on an adapter and its handler invoked (the handler's own
outcome is then wrapped separately); or the truthiness check passed via
an inherited `Object.prototype` property, whose `handler` is undefined,
so the call inside the try block throws a TypeError that the catch turns
into a `-32603` error envelope; or no adapter's check passed and a
`-32601` "Tool not found" error envelope was returned. -/
inductive HttpCallResult where
  | handled (adapterName toolName : String)
  | failedCall (code : Int) (message : String)
  | notFound (code : Int) (message : String)
deriving DecidableEq

/-- The `tools/call` dispatch of src/server.js lines 441-489: the meta
tool branch (lines 446-449) contains no return statement and falls
through; the adapter loop returns on the first adapter for which
`adapter.tools[name]` is truthy — an own tool, or for any adapter an
`Object.prototype` property such as `constructor`.  In the inherited
case `adapter.tools[name].handler` is `undefined`, calling it throws a
TypeError (the engine-generated message as V8 renders it), and the
catch block answers with a `-32603` envelope carrying that message.
Only when no adapter's check passes is the `-32601` "Tool not found"
envelope returned. -/
def httpToolsCall (adapters : List (String × List String)) (name : String) :
    HttpCallResult :=
  match adapters.find? (fun a => jsDictHit a.2 name) with
  | some a =>
    if a.2.contains name then .handled a.1 name
    else .failedCall (-32603) "adapter.tools[name].handler is not a function"
  | none => .notFound (-32601) ("Tool not found: " ++ name)

/-!
Adapter connection lifecycle (src/adapters/postgresql.js and
src/adapters/lmdb.js).

Each adapter keeps one module-level mutable slot (`sql` / `kv`), here
passed explicitly as an `Option Nat` of an opaque handle id.  The
backend library calls are modelled by behaviour records so theorems can
quantify over every outcome the backend can produce.  Lifecycle calls
return, besides their result and the new slot value, the number of
fresh connection attempts performed (`postgres(...)` / `Deno.openKv`
invocations), so that idempotence claims can speak about duplicate
connections.
-/

/-- Outcomes of the PostgreSQL backend library as src/adapters/postgresql.js
uses it: `makeClient` is `postgres(config)` (a handle or a throw);
`query h q` is running the query `q` on the client `h` (the tagged
template `SELECT 1` and `conn.unsafe(...)` alike). -/
structure PgBehavior where
  makeClient : Except JsError Nat
  query : Nat → String → Except JsError JVal

/-- The `connect` of src/adapters/postgresql.js lines 21-31: if the
module-level `sql` slot is set it is returned unchanged (zero new
connection attempts); otherwise `postgres(config)` is invoked once and
the slot is filled with the resulting client. -/
def pgConnect (b : PgBehavior) (sql : Option Nat) :
    Except JsError Nat × Option Nat × Nat :=
  match sql with
  | some h => (.ok h, some h, 0)
  | none =>
    match b.makeClient with
    | .ok h => (.ok h, some h, 1)
    | .error e => (.error e, none, 1)

/-- The `isConnected` of src/adapters/postgresql.js lines 40-48: inside a
try/catch it calls `connect()` and then probes with `SELECT 1`,
returning `true` on success; every error from either step is caught and
turned into the return value `false`.  The return type `Bool` (not
`Except`) reflects that no exception can leave the function. -/
def pgIsConnected (b : PgBehavior) (sql : Option Nat) : Bool × Option Nat :=
  match pgConnect b sql with
  | (.error _, s, _) => (false, s)
  | (.ok h, s, _) =>
    match b.query h "SELECT 1" with
    | .ok _ => (true, s)
    | .error _ => (false, s)

/-- Outcomes of the Deno.Kv backend as src/adapters/lmdb.js uses it:
`openKv` is `Deno.openKv(config.path)` (a handle or a throw). -/
structure LmdbBehavior where
  openKv : Except JsError Nat

/-- The `connect` of src/adapters/lmdb.js lines 15-19: if the
module-level `kv` slot is set it is returned unchanged (zero new
connection attempts); otherwise `Deno.openKv` is invoked once and the
slot is filled with the resulting handle. -/
def lmdbConnect (b : LmdbBehavior) (kv : Option Nat) :
    Except JsError Nat × Option Nat × Nat :=
  match kv with
  | some h => (.ok h, some h, 0)
  | none =>
    match b.openKv with
    | .ok h => (.ok h, some h, 1)
    | .error e => (.error e, none, 1)

/-- The `isConnected` of src/adapters/lmdb.js lines 28-35: inside a
try/catch it calls `connect()` and returns `true` if that succeeds;
every error is caught and turned into the return value `false`. -/
def lmdbIsConnected (b : LmdbBehavior) (kv : Option Nat) : Bool × Option Nat :=
  match lmdbConnect b kv with
  | (.ok _, s, _) => (true, s)
  | (.error _, s, _) => (false, s)

/-!
The pg_update and pg_delete handlers (src/adapters/postgresql.js lines
107-139).
-/

/-- JavaScript string truthiness on an optional string argument:
`undefined` and the empty string are falsy. -/
def jsTruthy : Option String → Bool
  | none => false
  | some s => s ≠ ""

/-- JavaScript template-literal interpolation of a value, as the query
builders of src/adapters/postgresql.js use it on non-string values. -/
def jsTemplateStr : JVal → String
  | .null => "null"
  | .undef => "undefined"
  | .bool b => cond b "true" "false"
  | .num n => toString n
  | .str s => s
  | .arr xs => String.intercalate "," (xs.attach.map (fun x => jsTemplateStr x.1))
  | .obj _ => "[object Object]"
decreasing_by
  have := List.sizeOf_lt_of_mem x.2
  simp_wf
  omega

/-- A value as pg_update and pg_insert splice it into SQL text
(src/adapters/postgresql.js line 119): strings are wrapped in single
quotes, everything else is interpolated. -/
def pgQuoteVal (v : JVal) : String :=
  match v with
  | .str s => "'" ++ s ++ "'"
  | v => jsTemplateStr v

/-- Arguments of the pg_update handler; `whereClause` is the optional
`where` argument (`where` is a reserved word here). -/
structure PgUpdateArgs where
  table : String
  data : String
  whereClause : Option String

/-- Arguments of the pg_delete handler. -/
structure PgDeleteArgs where
  table : String
  whereClause : Option String

/-- The trace of one PostgreSQL handler call: its result or thrown
error, the module-level `sql` slot afterwards, the number of fresh
connection attempts made, and the queries sent to the backend. -/
structure PgCallTrace where
  result : Except JsError JVal
  sql : Option Nat
  connectAttempts : Nat
  executed : List String

/-- Property read `result.count` on the backend's return value, as the
pg_update and pg_delete handlers build their response objects. -/
def jsGetField (v : JVal) (key : String) : JVal :=
  match v with
  | .obj fields =>
    match fields.lookup key with
    | some w => w
    | none => .undef
  | _ => JVal.undef

/-- The pg_update handler of src/adapters/postgresql.js lines 114-124:
`if (!where) throw new Error("WHERE clause required for UPDATE")` comes
first, before `connect()` and before the data is parsed; otherwise the
handler connects, parses `data` (JSON.parse is passed in as `parseJson`),
builds `UPDATE <table> SET <sets> WHERE <where>` and executes it via
`conn.unsafe`, returning `{updated: true, count: result.count}`. -/
def pgUpdateHandler (b : PgBehavior)
    (parseJson : String → Except JsError (List (String × JVal)))
    (args : PgUpdateArgs) (sql₀ : Option Nat) : PgCallTrace :=
  if jsTruthy args.whereClause then
    match pgConnect b sql₀ with
    | (.error e, s, n) => ⟨.error e, s, n, []⟩
    | (.ok h, s, n) =>
      match parseJson args.data with
      | .error e => ⟨.error e, s, n, []⟩
      | .ok obj =>
        let sets := String.intercalate ", "
          (obj.map (fun kv => kv.1 ++ " = " ++ pgQuoteVal kv.2))
        let w := (args.whereClause).getD ""
        let query := "UPDATE " ++ args.table ++ " SET " ++ sets ++ " WHERE " ++ w
        match b.query h query with
        | .error e => ⟨.error e, s, n, [query]⟩
        | .ok result =>
          ⟨.ok (.obj [("updated", .bool true),
                      ("count", jsGetField result "count")]),
           s, n, [query]⟩
  else
    ⟨.error (.error "WHERE clause required for UPDATE"), sql₀, 0, []⟩

/-- The pg_delete handler of src/adapters/postgresql.js lines 133-138:
`if (!where) throw new Error("WHERE clause required for DELETE")` comes
first, before `connect()`; otherwise the handler connects, executes
`DELETE FROM <table> WHERE <where>` via `conn.unsafe` and returns
`{deleted: true, count: result.count}`. -/
def pgDeleteHandler (b : PgBehavior) (args : PgDeleteArgs)
    (sql₀ : Option Nat) : PgCallTrace :=
  if jsTruthy args.whereClause then
    match pgConnect b sql₀ with
    | (.error e, s, n) => ⟨.error e, s, n, []⟩
    | (.ok h, s, n) =>
      let w := (args.whereClause).getD ""
      let query := "DELETE FROM " ++ args.table ++ " WHERE " ++ w
      match b.query h query with
      | .error e => ⟨.error e, s, n, [query]⟩
      | .ok result =>
        ⟨.ok (.obj [("deleted", .bool true),
                    ("count", jsGetField result "count")]),
         s, n, [query]⟩
  else
    ⟨.error (.error "WHERE clause required for DELETE"), sql₀, 0, []⟩

/-!
The db_help meta tool (src/server.js lines 132-200; src/index.js lines
92-157 is the same code).  For this tool the registry entries carry
their full descriptor data: adapter description and, per tool, its
description and parameter schema.
-/

/-- A parameter descriptor as the adapters declare it: a `type` string
and a human description. -/
structure ParamDef where
  type : String
  description : String
deriving DecidableEq

/-- A tool descriptor as db_help reads it: description and named
parameter schemas in declaration order (the handler is not consulted by
db_help). -/
structure ToolDef where
  description : String
  params : List (String × ParamDef)
deriving DecidableEq

/-- An adapter as db_help reads it: its description and its named tools
in declaration order. -/
structure AdapterDef where
  description : String
  tools : List (String × ToolDef)
deriving DecidableEq

/-- One tool entry of the db_help per-adapter catalogue: name,
description, and the parameter list flattened to (name, descriptor)
pairs, exactly as the handler maps `Object.entries(adapter.tools)`. -/
structure HelpToolEntry where
  name : String
  description : String
  params : List (String × ParamDef)
deriving DecidableEq

/-- The db_help response: the "Unknown database" text result, one
adapter's full catalogue, the degenerate catalogue-shaped response that
an `Object.prototype` hit produces (its `description` is `undefined`,
dropped by `JSON.stringify`, and `adapter.tools || {}` is `{}`, so the
tools list is empty), or the all-databases summary of
(name, description, toolCount) rows. -/
inductive DbHelpResult where
  | unknown (text : String)
  | catalogue (database description : String) (tools : List HelpToolEntry)
  | inheritedCatalogue (database : String)
  | summary (databases : List (String × String × Nat))
deriving DecidableEq

/-- The db_help handler of src/server.js lines 141-199: `if (database)`
(JavaScript truthiness, so `undefined` and the empty string both select
the summary branch) evaluates `adapters[database]` — a bracket access
that hits own entries and the `Object.prototype` chain alike.  The
`if (!adapter)` guard answers the "Unknown database" text only when the
access is `undefined`: a registered name yields that adapter's full
tool catalogue, while an unregistered `Object.prototype` name such as
`constructor` passes the guard and yields the degenerate
catalogue-shaped response.  With no (truthy) name db_help answers the
summary of every adapter in registry order. -/
def dbHelp (adapters : List (String × AdapterDef)) (database : Option String) :
    DbHelpResult :=
  if jsTruthy database then
    let name := database.getD ""
    match jsDictGet adapters name with
    | .absent =>
        .unknown ("Unknown database: " ++ name
          ++ ". Use db_list to see available databases.")
    | .own a =>
        .catalogue name a.description
          (a.tools.map (fun t => ⟨t.1, t.2.description, t.2.params⟩))
    | .inherited => .inheritedCatalogue name
  else
    .summary (adapters.map (fun p => (p.1, p.2.description, p.2.tools.length)))

/-!
The LMDB store operations (src/adapters/lmdb.js lines 40-95).

The Deno.Kv store is modelled as an association list from the key (the
one-element key path `[key]`) to the stored value; an entry may hold
`null`, which `kv.list` still enumerates but `get` reports with
`value: null` exactly like an absent key.
-/

/-- A Deno.Kv store: entries in insertion order, one per key. -/
def KvStore : Type := List (String × JVal)

/-- The `conn.get([key])` read: `result.value` is the stored value, or
`null` when the key has no entry. -/
def kvGetValue (store : KvStore) (key : String) : JVal :=
  match List.lookup key store with
  | some v => v
  | none => .null

/-- The `conn.delete([key])` write: the entry for the key, if any, is
removed. -/
def kvDelete (store : KvStore) (key : String) : KvStore :=
  List.filter (fun p => p.1 ≠ key) store

/-- Whether a value is JavaScript `null`. -/
def JVal.isNull : JVal → Bool
  | .null => true
  | _ => false

/-- The result object of the lmdb_delete handler. -/
structure LmdbDeleteResult where
  deleted : Bool
  key : String
deriving DecidableEq

/-- The lmdb_delete handler of src/adapters/lmdb.js lines 77-82 (run on
the connected store): it reads the existing entry with `conn.get([key])`,
deletes the key, and returns `{deleted: existing.value !== null, key}`. -/
def lmdbDeleteHandler (key : String) (store : KvStore) :
    LmdbDeleteResult × KvStore :=
  let existing := kvGetValue store key
  (⟨!existing.isNull, key⟩, kvDelete store key)

/-!
Concrete fixtures used by the witness theorems.
-/

/-- A PostgreSQL backend whose client construction succeeds (postgres.js
constructs its client lazily) but whose every query fails: an entirely
unreachable backend. -/
def unreachablePg : PgBehavior :=
  ⟨.ok 0, fun _ _ => .error (.error "connection refused")⟩

/-- A Deno.Kv backend whose open call fails: an entirely unreachable
backend. -/
def unreachableLmdb : LmdbBehavior :=
  ⟨.error (.error "openKv failed")⟩

/-- A healthy PostgreSQL backend: client construction yields handle 7
and every query succeeds. -/
def freshPg : PgBehavior :=
  ⟨.ok 7, fun _ _ => .ok .null⟩

/-- A healthy Deno.Kv backend: opening yields handle 3. -/
def freshLmdb : LmdbBehavior :=
  ⟨.ok 3⟩

/-- The LMDB adapter's descriptor data as src/adapters/lmdb.js declares
it (description, tools with their descriptions and parameter schemas),
used to exercise db_help on a concrete registry entry. -/
def lmdbAdapterDef : AdapterDef :=
  ⟨"Embedded KV store (Deno.Kv backend)",
   [("lmdb_get", ⟨"Get a value by key",
      [("key", ⟨"string", "Key to get"⟩)]⟩),
    ("lmdb_put", ⟨"Put a key-value pair",
      [("key", ⟨"string", "Key to set"⟩),
       ("value", ⟨"string", "Value (JSON for objects)"⟩)]⟩),
    ("lmdb_delete", ⟨"Delete a key",
      [("key", ⟨"string", "Key to delete"⟩)]⟩),
    ("lmdb_exists", ⟨"Check if a key exists",
      [("key", ⟨"string", "Key to check"⟩)]⟩),
    ("lmdb_range", ⟨"Get a range of key-value pairs",
      [("prefix", ⟨"string", "Key prefix (optional)"⟩),
       ("limit", ⟨"number", "Max results (default 100)"⟩)]⟩),
    ("lmdb_keys", ⟨"Get all keys matching a prefix",
      [("prefix", ⟨"string", "Key prefix to match"⟩),
       ("limit", ⟨"number", "Max results (default 100)"⟩)]⟩),
    ("lmdb_batch", ⟨"Execute multiple put/delete operations atomically",
      [("operations",
        ⟨"string", "JSON array of \x7bop: 'put'|'delete', key, value?\x7d"⟩)]⟩),
    ("lmdb_stats", ⟨"Get database statistics", []⟩)]⟩

/-- Numeric encoding of a short string (fold of character codes), used
only to decide name-distinctness facts over the registry cheaply via
`List.Nodup.of_map`. -/
def strCode (s : String) : Nat :=
  s.data.foldl (fun acc c => acc * 256 + c.toNat) 1

/-!
Theorems.  Shared helper lemmas come first, then one block per claim.
-/

/-- Helper: an operation declared by a registry entry appears in the
flattened table's name column. -/
theorem mem_map_fst_flattenOps {adapters : List (String × List String)}
    {a t : String} {ts : List String}
    (ha : (a, ts) ∈ adapters) (ht : t ∈ ts) :
    t ∈ (flattenOps adapters).map Prod.fst := by
  have hmem : (t, a) ∈ flattenOps adapters := by
    simp only [flattenOps, List.mem_flatMap]
    exact ⟨(a, ts), ha, List.mem_map.mpr ⟨t, ht, rfl⟩⟩
  exact List.mem_map.mpr ⟨(t, a), hmem, rfl⟩

/-- Helper: when the flattened operation names are distinct, HTTP-mode
dispatch routes a declared operation — whose name, like every actual
tool name, is not an `Object.prototype` property — to the adapter that
declared it. -/
theorem httpToolsCall_routes
    (adapters : List (String × List String)) (a : String) (ts : List String)
    (t : String) (hnd : ((flattenOps adapters).map Prod.fst).Nodup)
    (ha : (a, ts) ∈ adapters) (ht : t ∈ ts)
    (hp : t ∉ objectPrototypeProps) :
    httpToolsCall adapters t = .handled a t := by
  induction adapters with
  | nil => cases ha
  | cons head rest ih =>
    obtain ⟨k, ks⟩ := head
    have hflat : (flattenOps ((k, ks) :: rest)).map Prod.fst
        = ks ++ (flattenOps rest).map Prod.fst := by
      simp only [flattenOps, List.flatMap_cons, List.map_append, List.map_map]
      rw [show (Prod.fst ∘ fun x => (x, k)) = id from rfl, List.map_id]
    rw [hflat, List.nodup_append] at hnd
    rcases List.mem_cons.mp ha with heq | hrest
    · cases heq
      have hc : ts.contains t = true := List.elem_iff.mpr ht
      unfold httpToolsCall
      rw [List.find?_cons_of_pos _ (by simp [jsDictHit, List.elem_iff.mp hc])]
      simp [hc, ht]
    · have htrest : t ∈ (flattenOps rest).map Prod.fst :=
        mem_map_fst_flattenOps hrest ht
      have hnk : t ∉ ks := fun hks => hnd.2.2 hks htrest
      unfold httpToolsCall
      rw [List.find?_cons_of_neg _ (by simp [jsDictHit]; exact ⟨hnk, hp⟩)]
      exact ih hnd.2.1 hrest

/-- Helper: a name that no adapter declares and that is not an
`Object.prototype` property is answered by the `-32601` "Tool not
found" error envelope. -/
theorem httpToolsCall_notFound
    (adapters : List (String × List String)) (name : String)
    (habs : ∀ p ∈ adapters, name ∉ p.2)
    (hp : name ∉ objectPrototypeProps) :
    httpToolsCall adapters name
      = .notFound (-32601) ("Tool not found: " ++ name) := by
  unfold httpToolsCall
  rw [List.find?_eq_none.mpr]
  intro p hmem
  simp [jsDictHit]
  exact ⟨habs p hmem, hp⟩

/-- Helper: a name that no adapter declares but that is an
`Object.prototype` property passes the truthiness check on the first
adapter, whose missing `handler` makes the call throw; the catch
answers with the `-32603` envelope. -/
theorem httpToolsCall_inherited
    (adapters : List (String × List String)) (name : String)
    (hproto : name ∈ objectPrototypeProps)
    (habs : ∀ p ∈ adapters, name ∉ p.2)
    (hne : adapters ≠ []) :
    httpToolsCall adapters name
      = .failedCall (-32603) "adapter.tools[name].handler is not a function" := by
  cases adapters with
  | nil => exact absurd rfl hne
  | cons head rest =>
    unfold httpToolsCall
    rw [List.find?_cons_of_pos _ (by simp [jsDictHit, hproto])]
    have hc : name ∉ head.2 := habs head (List.mem_cons_self head rest)
    simp [hc]

/-- Helper: the twenty adapter keys of the server.js registry are
pairwise distinct. -/
theorem serverKeysNodup : (serverAdapters.map Prod.fst).Nodup := by
  have h : ((serverAdapters.map Prod.fst).map strCode).Nodup := by decide
  exact h.of_map strCode

set_option maxRecDepth 10000 in
/-- Helper: the operation names across the whole server.js registry are
pairwise distinct. -/
theorem serverOpsNodup : ((flattenOps serverAdapters).map Prod.fst).Nodup := by
  have h : (((flattenOps serverAdapters).map Prod.fst).map strCode).Nodup := by
    decide
  exact h.of_map strCode

/-- Helper: the eleven adapter keys of the index.js registry are
pairwise distinct. -/
theorem indexKeysNodup : (indexAdapters.map Prod.fst).Nodup := by
  have h : ((indexAdapters.map Prod.fst).map strCode).Nodup := by decide
  exact h.of_map strCode

set_option maxRecDepth 10000 in
/-- Helper: the operation names across the whole index.js registry are
pairwise distinct. -/
theorem indexOpsNodup : ((flattenOps indexAdapters).map Prod.fst).Nodup := by
  have h : (((flattenOps indexAdapters).map Prod.fst).map strCode).Nodup := by
    decide
  exact h.of_map strCode

/-- Helper: deleting a key with no entry leaves the store unchanged. -/
theorem kvDelete_of_lookup_none {store : KvStore} {key : String}
    (h : List.lookup key store = none) : kvDelete store key = store := by
  unfold kvDelete
  induction store with
  | nil => rfl
  | cons x xs ih =>
    obtain ⟨a, b⟩ := x
    by_cases hk : key = a
    · subst hk
      simp [List.lookup] at h
    · have h2 : List.lookup key xs = none := by
        simpa [List.lookup, beq_eq_false_iff_ne.mpr hk] using h
      rw [List.filter_cons_of_pos (by simpa using Ne.symm hk), ih h2]

/-- C1, counterexample.  Registry construction does not fail on
duplicates: a repeated adapter key in the object literal is silently
collapsed (last value wins) instead of raising a startup error, and a
duplicated operation name is carried into the flattened table (its
name column has a repeat) and is resolved first-match at call time by
dispatch — the violation surfaces at call time rather than failing
construction. -/
theorem C1_counterexample :
    objectEntries [("alpha", ["alpha_get"]), ("alpha", ["alpha_put"])]
        = [("alpha", ["alpha_put"])]
    ∧ ¬ ((flattenOps [("alpha", ["shared_op"]), ("beta", ["shared_op"])]).map
          Prod.fst).Nodup
    ∧ httpToolsCall [("alpha", ["shared_op"]), ("beta", ["shared_op"])]
        "shared_op" = .handled "alpha" "shared_op" :=
  ⟨by decide, by decide, by decide⟩

/-- C1 (amended): registry construction performs no uniqueness
validation and cannot fail, but the uniqueness invariant does hold for
the program as built — the adapter keys are pairwise distinct and the
operation names across the whole registry are pairwise distinct, in
both the server.js registry (20 adapters) and the index.js registry
(11 adapters). -/
theorem C1_registry_uniqueness :
    (serverAdapters.map Prod.fst).Nodup
    ∧ ((flattenOps serverAdapters).map Prod.fst).Nodup
    ∧ (indexAdapters.map Prod.fst).Nodup
    ∧ ((flattenOps indexAdapters).map Prod.fst).Nodup :=
  ⟨serverKeysNodup, serverOpsNodup, indexKeysNodup, indexOpsNodup⟩

/-- C2, counterexample.  When a handler registered through src/index.js
throws an Error, the Failure envelope the index.js gateway returns is
`{error: message}` alone: it carries no `tool` and no `adapter` field,
so the operation name and the owning adapter's name are absent. -/
theorem C2_counterexample :
    indexToolWrapper (.throw (.err "connection refused"))
        = .ok (.failure [("error", .str "connection refused")])
    ∧ List.lookup "tool" [("error", JVal.str "connection refused")] = none
    ∧ List.lookup "adapter" [("error", JVal.str "connection refused")] = none :=
  ⟨rfl, rfl, rfl⟩

/-- C2 (amended): the server.js gateway's Failure envelope does carry
the attribution — for every adapter operation and every thrown Error,
its fields include the raw message under `error`, the operation name
under `tool` and the owning adapter's name under `adapter`; the
index.js gateway's envelope carries only the raw message. -/
theorem C2_failure_attribution (adapterName toolName msg : String) :
    (∃ fields,
        serverToolWrapper adapterName toolName (.throw (.err msg))
            = .ok (.failure fields)
        ∧ List.lookup "error" fields = some (.str msg)
        ∧ List.lookup "tool" fields = some (.str toolName)
        ∧ List.lookup "adapter" fields = some (.str adapterName))
    ∧ indexToolWrapper (.throw (.err msg))
        = .ok (.failure [("error", .str msg)]) :=
  ⟨⟨_, rfl, rfl, rfl, rfl⟩, rfl⟩

/-- C3, counterexample.  A thrown non-Error value escapes the server.js
wrapper: for a handler that throws the string "boom", the catch block's
`error.message.substring(0, 50)` is a property access on `undefined`,
so the wrapper itself throws a TypeError instead of producing an
envelope. -/
theorem C3_counterexample :
    serverToolWrapper "postgresql" "pg_query" (.throw (.plain (.str "boom")))
      = .error (.typeError
          "Cannot read properties of undefined (reading 'substring')") :=
  rfl

/-- C3 (amended): for every handler outcome that is a returned value or
a thrown value carrying a string message (an Error in particular), both
gateway wrappers produce exactly one envelope — a populated Success for
a return, a Failure with a populated error message for a throw — and
no exception escapes; a thrown value without a string message escapes
the server.js wrapper as a TypeError. -/
theorem C3_envelope_totality (adapterName toolName : String)
    (outcome : HandlerOutcome) (h : outcome.messageBearing = true) :
    (∃ v, outcome = .ret v
        ∧ serverToolWrapper adapterName toolName outcome = .ok (.success v)
        ∧ indexToolWrapper outcome = .ok (.success v))
    ∨ (∃ m, outcome = .throw (.err m)
        ∧ (∃ fields, serverToolWrapper adapterName toolName outcome
              = .ok (.failure fields) ∧ fieldPopulated fields "error" = true)
        ∧ (∃ fields, indexToolWrapper outcome
              = .ok (.failure fields) ∧ fieldPopulated fields "error" = true)) := by
  cases outcome with
  | ret v => exact Or.inl ⟨v, rfl, rfl, rfl⟩
  | throw e =>
    cases e with
    | err m => exact Or.inr ⟨m, rfl, ⟨_, rfl, rfl⟩, ⟨_, rfl, rfl⟩⟩
    | plain v => simp [HandlerOutcome.messageBearing] at h

/-- C3 witness: the amended totality claim at a concrete thrown Error. -/
theorem C3_envelope_totality_witness :
    HandlerOutcome.messageBearing (.throw (.err "boom")) = true
    ∧ ((∃ v, (HandlerOutcome.throw (.err "boom")) = .ret v
          ∧ serverToolWrapper "postgresql" "pg_query" (.throw (.err "boom"))
              = .ok (.success v)
          ∧ indexToolWrapper (.throw (.err "boom")) = .ok (.success v))
      ∨ (∃ m, (HandlerOutcome.throw (.err "boom")) = .throw (.err m)
          ∧ (∃ fields, serverToolWrapper "postgresql" "pg_query"
                (.throw (.err "boom"))
                = .ok (.failure fields) ∧ fieldPopulated fields "error" = true)
          ∧ (∃ fields, indexToolWrapper (.throw (.err "boom"))
                = .ok (.failure fields)
                ∧ fieldPopulated fields "error" = true))) :=
  ⟨rfl, C3_envelope_totality "postgresql" "pg_query" (.throw (.err "boom")) rfl⟩

/-- C4, counterexample.  In HTTP mode the meta-operations are part of
the advertised callable surface — `db_list` appears in the `tools/list`
response — yet invoking `db_list` through `tools/call` does not route
anywhere: the meta branch falls through without returning, no adapter
declares the name, and the dispatcher answers with the `-32601`
"Tool not found" error envelope. -/
theorem C4_counterexample :
    "db_list" ∈ httpToolsList serverAdapters
    ∧ httpToolsCall serverAdapters "db_list"
        = .notFound (-32601) ("Tool not found: " ++ "db_list") :=
  ⟨by decide, by decide⟩

/-- C4 (amended): for every operation name an adapter declares — none
of which is an `Object.prototype` property name — HTTP `tools/call`
dispatch routes the call to exactly the adapter that declared it
(operation names being globally distinct); a name that neither any
adapter declares nor `Object.prototype` supplies — which in HTTP mode
includes the four meta-operation names that `tools/list` advertises —
is answered with the `-32601` "Tool not found" error envelope, never an
unhandled exception; and an undeclared name inherited from
`Object.prototype`, such as `constructor`, passes the truthiness check
on the first adapter and is answered with the `-32603` failed-call
envelope instead. -/
theorem C4_dispatch_correctness :
    (∀ (adapters : List (String × List String)) (a : String)
        (ts : List String) (t : String),
        ((flattenOps adapters).map Prod.fst).Nodup →
        (a, ts) ∈ adapters → t ∈ ts → t ∉ objectPrototypeProps →
        httpToolsCall adapters t = .handled a t)
    ∧ (∀ (adapters : List (String × List String)) (name : String),
        (∀ p ∈ adapters, name ∉ p.2) → name ∉ objectPrototypeProps →
        httpToolsCall adapters name
          = .notFound (-32601) ("Tool not found: " ++ name))
    ∧ (∀ (adapters : List (String × List String)) (name : String),
        name ∈ objectPrototypeProps → (∀ p ∈ adapters, name ∉ p.2) →
        adapters ≠ [] →
        httpToolsCall adapters name
          = .failedCall (-32603)
              "adapter.tools[name].handler is not a function") :=
  ⟨httpToolsCall_routes, httpToolsCall_notFound,
   fun adapters name hproto habs hne =>
     httpToolsCall_inherited adapters name hproto habs hne⟩

/-- C4 witness: routing, not-found and inherited-name dispatch on the
concrete server.js registry. -/
theorem C4_dispatch_correctness_witness :
    httpToolsCall serverAdapters "pg_update" = .handled "postgresql" "pg_update"
    ∧ httpToolsCall serverAdapters "no_such_tool"
        = .notFound (-32601) ("Tool not found: " ++ "no_such_tool")
    ∧ httpToolsCall serverAdapters "constructor"
        = .failedCall (-32603)
            "adapter.tools[name].handler is not a function" :=
  ⟨C4_dispatch_correctness.1 serverAdapters "postgresql" postgresqlToolNames
      "pg_update" serverOpsNodup (by decide) (by decide) (by decide),
   C4_dispatch_correctness.2.1 serverAdapters "no_such_tool" (by decide)
      (by decide),
   C4_dispatch_correctness.2.2 serverAdapters "constructor" (by decide)
      (by decide) (by decide)⟩

/-- C5: isConnected is totally isolated from backend failure.  For the
PostgreSQL adapter, whatever the module slot holds, if every probe
query fails then `isConnected` returns `false`; for the LMDB adapter,
if `Deno.openKv` fails then `isConnected` returns `false`.  Both
functions return a plain `Bool` — the try/catch in the source converts
every thrown error into the return value `false`, so no exception can
propagate. -/
theorem C5_isConnected_isolation :
    (∀ (b : PgBehavior) (sql : Option Nat),
        (∀ h, ∃ e, b.query h "SELECT 1" = .error e) →
        (pgIsConnected b sql).1 = false)
    ∧ (∀ (b : LmdbBehavior) (e : JsError),
        b.openKv = .error e →
        (lmdbIsConnected b none).1 = false) := by
  constructor
  · intro b sql hq
    cases sql with
    | some h =>
      obtain ⟨e, he⟩ := hq h
      simp [pgIsConnected, pgConnect, he]
    | none =>
      cases hb : b.makeClient with
      | ok h =>
        obtain ⟨e, he⟩ := hq h
        simp [pgIsConnected, pgConnect, hb, he]
      | error e =>
        simp [pgIsConnected, pgConnect, hb]
  · intro b e he
    simp [lmdbIsConnected, lmdbConnect, he]

/-- C5 witness: isConnected on concretely unreachable backends. -/
theorem C5_isConnected_isolation_witness :
    (pgIsConnected unreachablePg none).1 = false
    ∧ (lmdbIsConnected unreachableLmdb none).1 = false :=
  ⟨C5_isConnected_isolation.1 unreachablePg none
      (fun _ => ⟨.error "connection refused", rfl⟩),
   C5_isConnected_isolation.2 unreachableLmdb (.error "openKv failed") rfl⟩

/-- C6: connect is idempotent.  For the PostgreSQL and LMDB adapters,
whenever a `connect` call succeeds with handle `h` leaving slot state
`s₁`, a second `connect` from `s₁` returns the same stored handle `h`,
leaves the slot unchanged, raises no error, and performs zero new
connection attempts. -/
theorem C6_connect_idempotent :
    (∀ (b : PgBehavior) (s s₁ : Option Nat) (h n : Nat),
        pgConnect b s = (.ok h, s₁, n) →
        pgConnect b s₁ = (.ok h, s₁, 0))
    ∧ (∀ (b : LmdbBehavior) (s s₁ : Option Nat) (h n : Nat),
        lmdbConnect b s = (.ok h, s₁, n) →
        lmdbConnect b s₁ = (.ok h, s₁, 0)) := by
  constructor
  · intro b s s₁ h n heq
    cases s with
    | some h0 =>
      simp [pgConnect] at heq
      obtain ⟨h1, h2, h3⟩ := heq
      subst h1
      subst h2
      rfl
    | none =>
      cases hb : b.makeClient with
      | ok h0 =>
        simp [pgConnect, hb] at heq
        obtain ⟨h1, h2, h3⟩ := heq
        subst h1
        subst h2
        rfl
      | error e =>
        simp [pgConnect, hb] at heq
  · intro b s s₁ h n heq
    cases s with
    | some h0 =>
      simp [lmdbConnect] at heq
      obtain ⟨h1, h2, h3⟩ := heq
      subst h1
      subst h2
      rfl
    | none =>
      cases hb : b.openKv with
      | ok h0 =>
        simp [lmdbConnect, hb] at heq
        obtain ⟨h1, h2, h3⟩ := heq
        subst h1
        subst h2
        rfl
      | error e =>
        simp [lmdbConnect, hb] at heq

/-- C6 witness: a fresh connect then a second connect on concrete
healthy backends. -/
theorem C6_connect_idempotent_witness :
    pgConnect freshPg none = (.ok 7, some 7, 1)
    ∧ pgConnect freshPg (some 7) = (.ok 7, some 7, 0)
    ∧ lmdbConnect freshLmdb none = (.ok 3, some 3, 1)
    ∧ lmdbConnect freshLmdb (some 3) = (.ok 3, some 3, 0) :=
  ⟨rfl, C6_connect_idempotent.1 freshPg none (some 7) 7 1 rfl,
   rfl, C6_connect_idempotent.2 freshLmdb none (some 3) 3 1 rfl⟩

/-- C7: the pg_update and pg_delete handlers refuse to run without a
WHERE clause.  When the `where` argument is absent the handler throws
the validation error naming the missing WHERE clause, the module slot
is unchanged, no connection attempt is made and no query reaches the
backend. -/
theorem C7_where_clause_required :
    (∀ (b : PgBehavior)
        (parseJson : String → Except JsError (List (String × JVal)))
        (args : PgUpdateArgs) (sql₀ : Option Nat),
        args.whereClause = none →
        pgUpdateHandler b parseJson args sql₀
          = ⟨.error (.error "WHERE clause required for UPDATE"), sql₀, 0, []⟩)
    ∧ (∀ (b : PgBehavior) (args : PgDeleteArgs) (sql₀ : Option Nat),
        args.whereClause = none →
        pgDeleteHandler b args sql₀
          = ⟨.error (.error "WHERE clause required for DELETE"), sql₀, 0, []⟩) := by
  constructor
  · intro b parseJson args sql₀ hw
    obtain ⟨tb, dt, w⟩ := args
    cases hw
    rfl
  · intro b args sql₀ hw
    obtain ⟨tb, w⟩ := args
    cases hw
    rfl

/-- C7 witness: the two handlers at concrete argument bags with the
where argument absent. -/
theorem C7_where_clause_required_witness :
    pgUpdateHandler freshPg (fun _ => .ok []) ⟨"users", "{}", none⟩ none
      = ⟨.error (.error "WHERE clause required for UPDATE"), none, 0, []⟩
    ∧ pgDeleteHandler freshPg ⟨"users", none⟩ none
      = ⟨.error (.error "WHERE clause required for DELETE"), none, 0, []⟩ :=
  ⟨C7_where_clause_required.1 freshPg (fun _ => .ok []) ⟨"users", "{}", none⟩
      none rfl,
   C7_where_clause_required.2 freshPg ⟨"users", none⟩ none rfl⟩

/-- C8, counterexample.  The name "constructor" is registered by no
adapter, yet db_help does not answer the "Unknown database" text for
it: the bracket access `adapters["constructor"]` hits the inherited
`Object.prototype.constructor`, which is truthy, so the `if (!adapter)`
guard is skipped and a degenerate catalogue-shaped response naming the
database is returned instead. -/
theorem C8_counterexample :
    List.lookup "constructor" [("lmdb", lmdbAdapterDef)] = none
    ∧ dbHelp [("lmdb", lmdbAdapterDef)] (some "constructor")
        = .inheritedCatalogue "constructor" :=
  ⟨rfl, by decide⟩

/-- C8 (amended): db_help answers a nonempty adapter name that is
neither registered nor an `Object.prototype` property with the explicit
"Unknown database" text result — a normal response naming the database,
not a thrown error; it answers every registered adapter name with that
adapter's full operation catalogue (each tool's name, description and
parameter list); and for an unregistered name that `Object.prototype`
supplies, such as "constructor", the prototype-chain hit skips the
unknown branch and produces the degenerate catalogue-shaped response. -/
theorem C8_db_help_catalogue :
    (∀ (adapters : List (String × AdapterDef)) (name : String),
        name ≠ "" → List.lookup name adapters = none →
        name ∉ objectPrototypeProps →
        dbHelp adapters (some name)
          = .unknown ("Unknown database: " ++ name
              ++ ". Use db_list to see available databases."))
    ∧ (∀ (adapters : List (String × AdapterDef)) (name : String)
        (a : AdapterDef),
        name ≠ "" → List.lookup name adapters = some a →
        dbHelp adapters (some name)
          = .catalogue name a.description
              (a.tools.map (fun t => ⟨t.1, t.2.description, t.2.params⟩)))
    ∧ (∀ (adapters : List (String × AdapterDef)) (name : String),
        name ≠ "" → List.lookup name adapters = none →
        name ∈ objectPrototypeProps →
        dbHelp adapters (some name) = .inheritedCatalogue name) := by
  refine ⟨?_, ?_, ?_⟩
  · intro adapters name hne hlk hp
    simp [dbHelp, jsTruthy, jsDictGet, hne, hlk, hp]
  · intro adapters name a hne hlk
    simp [dbHelp, jsTruthy, jsDictGet, hne, hlk]
  · intro adapters name hne hlk hp
    simp [dbHelp, jsTruthy, jsDictGet, hne, hlk, hp]

/-- C8 witness: db_help on a concrete one-adapter registry, with the
unknown name "gamma", the registered name "lmdb", and the inherited
name "constructor". -/
theorem C8_db_help_catalogue_witness :
    ("gamma" : String) ≠ ""
    ∧ List.lookup "gamma" [("lmdb", lmdbAdapterDef)] = none
    ∧ dbHelp [("lmdb", lmdbAdapterDef)] (some "gamma")
        = .unknown ("Unknown database: " ++ "gamma"
            ++ ". Use db_list to see available databases.")
    ∧ List.lookup "lmdb" [("lmdb", lmdbAdapterDef)] = some lmdbAdapterDef
    ∧ dbHelp [("lmdb", lmdbAdapterDef)] (some "lmdb")
        = .catalogue "lmdb" lmdbAdapterDef.description
            (lmdbAdapterDef.tools.map
              (fun t => ⟨t.1, t.2.description, t.2.params⟩))
    ∧ ("constructor" : String) ∈ objectPrototypeProps
    ∧ dbHelp [("lmdb", lmdbAdapterDef)] (some "constructor")
        = .inheritedCatalogue "constructor" :=
  ⟨by decide, rfl,
   C8_db_help_catalogue.1 [("lmdb", lmdbAdapterDef)] "gamma" (by decide) rfl
     (by decide),
   rfl,
   C8_db_help_catalogue.2.1 [("lmdb", lmdbAdapterDef)] "lmdb" lmdbAdapterDef
     (by decide) rfl,
   by decide,
   C8_db_help_catalogue.2.2 [("lmdb", lmdbAdapterDef)] "constructor"
     (by decide) rfl (by decide)⟩

/-- C9: db_help with the empty string returns the all-databases
summary, the same result as when the database argument is omitted,
because the JavaScript truthiness check treats the empty string as
absent. -/
theorem C9_db_help_empty_string (adapters : List (String × AdapterDef)) :
    dbHelp adapters (some "") = dbHelp adapters none
    ∧ dbHelp adapters (some "")
        = .summary (adapters.map
            (fun p => (p.1, p.2.description, p.2.tools.length))) := by
  constructor <;> simp [dbHelp, jsTruthy]

/-- C10, counterexample.  A key whose stored value is JavaScript `null`
(reachable via lmdb_put with the value "null") is present in the store
— `kv.list`, and with it lmdb_keys, still enumerates it — yet
lmdb_delete reports `deleted: false` for it while still removing the
entry, so the deleted flag does not always equal whether the key
existed before the call. -/
theorem C10_counterexample :
    (("k", JVal.null) ∈ ([("k", JVal.null)] : KvStore))
    ∧ (lmdbDeleteHandler "k" [("k", JVal.null)]).1.deleted = false
    ∧ (lmdbDeleteHandler "k" [("k", JVal.null)]).2 = ([] : KvStore) :=
  ⟨List.mem_singleton.mpr rfl, rfl, rfl⟩

/-- C10 (amended): lmdb_delete completes without error, returns the
key, removes the key's entry, reports `deleted` equal to whether the
stored value was non-null (the notion of existence lmdb_get and
lmdb_exists use), and leaves the store unchanged when the key has no
entry. -/
theorem C10_lmdb_delete_behaviour (key : String) (store : KvStore) :
    (lmdbDeleteHandler key store).1.key = key
    ∧ (lmdbDeleteHandler key store).1.deleted
        = !(kvGetValue store key).isNull
    ∧ (lmdbDeleteHandler key store).2 = kvDelete store key
    ∧ (List.lookup key store = none →
        (lmdbDeleteHandler key store).2 = store) :=
  ⟨rfl, rfl, rfl, fun h => kvDelete_of_lookup_none h⟩

/-- C10 witness: lmdb_delete of an absent key on a concrete store. -/
theorem C10_lmdb_delete_behaviour_witness :
    List.lookup "missing" ([("a", JVal.str "1")] : KvStore) = none
    ∧ ((lmdbDeleteHandler "missing" [("a", JVal.str "1")]).1.key = "missing"
       ∧ (lmdbDeleteHandler "missing" [("a", JVal.str "1")]).1.deleted
           = !(kvGetValue [("a", JVal.str "1")] "missing").isNull
       ∧ (lmdbDeleteHandler "missing" [("a", JVal.str "1")]).2
           = kvDelete [("a", JVal.str "1")] "missing"
       ∧ (List.lookup "missing" ([("a", JVal.str "1")] : KvStore) = none →
           (lmdbDeleteHandler "missing" [("a", JVal.str "1")]).2
             = [("a", JVal.str "1")])) :=
  ⟨rfl, C10_lmdb_delete_behaviour "missing" [("a", JVal.str "1")]⟩
